import Mathlib

/-!
Shallow embedding of the asset state manager and cross-representation
color pipeline of `src/main.py` (class `MainWindow`).  The external
collaborators (Qt dialogs, pyvista, trimesh, PIL, rembg, the mesh
writers) enter as explicit parameters that describe the outcome of the
single call the code makes to them; everything the code itself computes
is translated directly.
-/

namespace ViewerModel

/-- Numpy dtype of a color array, to the extent `load_3d_model`
distinguishes it: the only dtype test in the code is
`colors.dtype != np.uint8` (line 271). -/
inductive Dtype where
  | uint8
  | float64
  | int32
  deriving DecidableEq, Repr

/-- A numpy per-vertex color array of shape `(rows.length, ncols)`;
channel values are carried as rationals (integral for integer dtypes). -/
structure NpColorArray where
  dtype : Dtype
  ncols : Nat
  rows : List (List ℚ)
  deriving DecidableEq, Repr

/-- The C-style cast `astype(np.uint8)` applied to a single channel
value: truncation toward zero (`q.num / q.den` in integer T-division),
then reduction into the 8-bit range. -/
def npCastUint8 (q : ℚ) : ℚ := ((q.num / q.den : Int) % 256 : Int)

/-- The combination `(value * 255).astype(np.uint8)` of line 272.  The
product `q * 255` is the value of the fraction `(q.num * 255) / q.den`,
and truncation toward zero of a fraction depends only on its value, so
the cast is computed on that fraction directly. -/
def npCastUint8Scaled (q : ℚ) : ℚ := ((q.num * 255 / q.den : Int) % 256 : Int)

/-- The reduction `np.max(colors)`: the greatest channel value across
the whole array (0 for a degenerate empty array). -/
def maxVal (a : NpColorArray) : ℚ :=
  match a.rows.flatten with
  | [] => 0
  | x :: xs => xs.foldl max x

/-- Line 270: `if colors.shape[1] == 4: colors = colors[:, :3]`. -/
def dropAlpha (a : NpColorArray) : NpColorArray :=
  if a.ncols = 4 then { a with ncols := 3, rows := a.rows.map (fun r => r.take 3) }
  else a

/-- Lines 269-273 of `load_3d_model`: the color transcoder.  A
4-channel array loses its alpha channel; then, when the dtype is not
already `uint8`, the float-versus-8-bit detection compares the maximum
value with 1.0 and either rescales by 255 before the `uint8` cast or
casts directly.  An array whose dtype is already `uint8` is left as it
is. -/
def transcode_colors (a0 : NpColorArray) : NpColorArray :=
  let a := dropAlpha a0
  if a.dtype ≠ Dtype.uint8 then
    if maxVal a ≤ 1 then
      { dtype := Dtype.uint8, ncols := a.ncols,
        rows := a.rows.map (fun r => r.map npCastUint8Scaled) }
    else
      { dtype := Dtype.uint8, ncols := a.ncols,
        rows := a.rows.map (fun r => r.map npCastUint8) }
  else a

/-- The transcoder exactly as claim C2 words it: the float-versus-8-bit
detection compares the maximum observed value with 1.0 for every
accepted array, with no regard to the stored dtype.  Used only to be
compared with `transcode_colors`, which follows the source. -/
def claimed_transcode (a0 : NpColorArray) : NpColorArray :=
  let a := dropAlpha a0
  if maxVal a ≤ 1 then
    { dtype := Dtype.uint8, ncols := a.ncols,
      rows := a.rows.map (fun r => r.map npCastUint8Scaled) }
  else
    { dtype := Dtype.uint8, ncols := a.ncols,
      rows := a.rows.map (fun r => r.map npCastUint8) }

/-- A decoded PIL image, abstracted to its pixel dimensions; the pixel
contents never influence the control flow under verification. -/
structure Image where
  width : Nat
  height : Nat
  deriving DecidableEq, Repr

/-- A `trimesh.Trimesh` authoring mesh: its vertex count plus the
`visual.vertex_colors` array when the decoder attached one. -/
structure TrMesh where
  nVertices : Nat
  vertex_colors : Option NpColorArray
  deriving DecidableEq, Repr

/-- A pyvista dataset held in `current_mesh_pv`: either a wrapped mesh
or the image plane, with the optional `RGB` entries of `point_data` and
`cell_data`. -/
structure PVMesh where
  isPlane : Bool
  nPoints : Nat
  pointDataRGB : Option NpColorArray
  cellDataRGB : Option NpColorArray
  deriving DecidableEq, Repr

/-- The three draw styles of the radio group (lines 415-420). -/
inductive Style where
  | surface
  | wireframe
  | points
  deriving DecidableEq, Repr

/-- How a buffer is rendered: an ordinary mesh, or the flat plane that
carries a 2D image (line 303 discriminates the two). -/
inductive BufferKind where
  | mesh3D
  | texturedPlane
  deriving DecidableEq, Repr

/-- The canonical renderable buffer that the recompute step consumes,
assembled from the viewer fields `update_representation` reads. -/
structure GeometryBuffer where
  kind : BufferKind
  nPoints : Nat
  pointDataRGB : Option NpColorArray
  cellDataRGB : Option NpColorArray
  texture_image : Option Image
  deriving DecidableEq, Repr

/-- The mutable presentation state: style radio selection, the mesh
color override and the opacity. -/
structure PresentationState where
  style : Style
  color_override : Option String
  opacity : ℚ
  deriving DecidableEq, Repr

/-- The name of the color array, `point_data["RGB"]` in the source. -/
def rgbScalars : String := "RGB"

/-- Argument bundle of the single `plotter.add_mesh` call issued by
`update_representation` (lines 349-358). -/
structure RenderParams where
  style : Style
  show_edges : Bool
  color : Option String
  scalars : Option String
  rgb : Bool
  opacity : ℚ
  texture : Option Image
  deriving DecidableEq, Repr

/-- Lines 302-357 of `update_representation`, written as a function of
the buffer and presentation state it reads: the flat plane forces the
`surface` style (line 308) and takes its texture (lines 309-312); line
324 computes `show_edges`; line 329 disables the color override for the
plane; lines 334-344 select the `RGB` scalars only when no override and
no texture are active; lines 349-358 assemble the call. -/
def recompute_render_params (buffer : GeometryBuffer) (state : PresentationState) :
    RenderParams :=
  let is_flat_plane := buffer.kind == BufferKind.texturedPlane
  let texture_to_use := if is_flat_plane then buffer.texture_image else none
  let style := if is_flat_plane then Style.surface else state.style
  let show_edges := (style == Style.surface) && !is_flat_plane
  let plot_color := if is_flat_plane then none else state.color_override
  let use_rgb_scalars := plot_color.isNone && texture_to_use.isNone &&
    (buffer.pointDataRGB.isSome || buffer.cellDataRGB.isSome)
  { style := style
    show_edges := show_edges
    color := if use_rgb_scalars then none else plot_color
    scalars := if use_rgb_scalars then some rgbScalars else none
    rgb := use_rgb_scalars
    opacity := state.opacity
    texture := texture_to_use }

/-- The state fields of `MainWindow` that the verified operations read
and write (lines 34-43 and the opacity widgets), together with the
scene contents of the plotter (`none` when cleared). -/
structure ViewerState where
  current_mesh_pv : Option PVMesh
  current_mesh_tr : Option TrMesh
  current_image_pil : Option Image
  is_2d_image_loaded : Bool
  current_filepath : Option String
  override_color : Option String
  current_opacity : ℚ
  opacity_slider : Nat
  selected_style : Style
  plotter : Option RenderParams
  deriving DecidableEq, Repr

/-- The state right after `__init__`: nothing loaded, slider at 100,
the `Surface` radio checked (line 63). -/
def initial_state : ViewerState :=
  { current_mesh_pv := none, current_mesh_tr := none, current_image_pil := none,
    is_2d_image_loaded := false, current_filepath := none, override_color := none,
    current_opacity := 1, opacity_slider := 100, selected_style := Style.surface,
    plotter := none }

/-- Lines 363-376, `reset_viewer_state`: every asset field and the
scene are cleared and opacity returns to 1.0; the style radio group is
not touched, so the selection survives. -/
def reset_viewer_state (s : ViewerState) : ViewerState :=
  { current_mesh_pv := none, current_mesh_tr := none, current_image_pil := none,
    is_2d_image_loaded := false, current_filepath := none, override_color := none,
    current_opacity := 1, opacity_slider := 100,
    selected_style := s.selected_style, plotter := none }

/-- The buffer `update_representation` sees for the dataset `m` held in
`current_mesh_pv`: line 303 discriminates the plane case by
`is_2d_image_loaded` together with the dataset being the image plane,
and lines 309-312 take the texture from `current_image_pil`. -/
def buffer_of (s : ViewerState) (m : PVMesh) : GeometryBuffer :=
  if s.is_2d_image_loaded && m.isPlane then
    { kind := BufferKind.texturedPlane, nPoints := m.nPoints,
      pointDataRGB := m.pointDataRGB, cellDataRGB := m.cellDataRGB,
      texture_image := s.current_image_pil }
  else
    { kind := BufferKind.mesh3D, nPoints := m.nPoints,
      pointDataRGB := m.pointDataRGB, cellDataRGB := m.cellDataRGB,
      texture_image := none }

/-- The presentation state assembled from the widget-backed fields. -/
def present_of (s : ViewerState) : PresentationState :=
  { style := s.selected_style, color_override := s.override_color,
    opacity := s.current_opacity }

/-- `update_representation` as a state step: with no dataset the scene
is cleared (lines 298-300), otherwise the scene is cleared and the
dataset re-added with the recomputed parameters (lines 326, 349-358). -/
def update_representation (s : ViewerState) : ViewerState :=
  match s.current_mesh_pv with
  | none => { s with plotter := none }
  | some m =>
      { s with plotter := some (recompute_render_params (buffer_of s m) (present_of s)) }

/-- Outcome of `trimesh.load(path, force="mesh")` (external codec): a
scene holding some parts, a single mesh, some other object such as a
bare point cloud, or a raised decode error. -/
inductive RawLoad where
  | scene (parts : List TrMesh)
  | mesh (tr : TrMesh)
  | other
  | failure
  deriving DecidableEq, Repr

/-- `trimesh.util.concatenate` (external collaborator): vertex counts
add up; the merged mesh keeps a color array exactly when every part
carries one, in which case the rows are appended in order. -/
def trimesh_concatenate (parts : List TrMesh) : TrMesh :=
  { nVertices := (parts.map TrMesh.nVertices).sum,
    vertex_colors :=
      if parts.all (fun p => p.vertex_colors.isSome) then
        some { dtype := Dtype.uint8, ncols := 4,
               rows := (parts.map (fun p =>
                 (p.vertex_colors.getD { dtype := Dtype.uint8, ncols := 4, rows := [] }).rows)).flatten }
      else none }

/-- Lines 256-265 of `load_3d_model`: a scene with geometry is
concatenated into one mesh, an empty scene raises, and anything that is
not a `trimesh.Trimesh` raises. -/
def resolve_loaded_object : RawLoad → Except String TrMesh
  | RawLoad.scene parts =>
      if parts.length > 0 then Except.ok (trimesh_concatenate parts)
      else Except.error ("Trimesh loaded an empty scene.")
  | RawLoad.mesh tr => Except.ok tr
  | RawLoad.other => Except.error ("Loaded object is not a Trimesh mesh.")
  | RawLoad.failure => Except.error ("decode failure")

/-- Lines 266-274: `pv.wrap` plus the vertex-color transfer guarded by
the length check of line 268; the dtype conversion of lines 269-273 is
`transcode_colors`. -/
def pv_wrap_with_colors (tr : TrMesh) : PVMesh :=
  match tr.vertex_colors with
  | some colors =>
      if colors.rows.length == tr.nVertices then
        { isPlane := false, nPoints := tr.nVertices,
          pointDataRGB := some (transcode_colors colors), cellDataRGB := none }
      else
        { isPlane := false, nPoints := tr.nVertices,
          pointDataRGB := none, cellDataRGB := none }
  | none =>
      { isPlane := false, nPoints := tr.nVertices,
        pointDataRGB := none, cellDataRGB := none }

/-- Lines 254-295 of `load_3d_model` after the file dialog: on any
failure of the decode pipeline the viewer is reset; on success the
authoring and display meshes are installed, the image fields cleared,
the override cleared, the opacity reset, and the scene rebuilt through
`update_representation` (lines 285-286). -/
def load_3d_model (raw : RawLoad) (file_path : String) (s : ViewerState) : ViewerState :=
  match resolve_loaded_object raw with
  | Except.error _ => reset_viewer_state s
  | Except.ok mesh_tr =>
      let mesh_pv := pv_wrap_with_colors mesh_tr
      let s1 : ViewerState :=
        { s with
          current_mesh_tr := some mesh_tr
          current_mesh_pv := some mesh_pv
          current_image_pil := none
          is_2d_image_loaded := false
          current_filepath := some file_path
          override_color := none
          current_opacity := 1
          opacity_slider := 100 }
      update_representation s1

/-- The plane of lines 196-198: `pv.Plane` with resolutions 1, a one
cell quad of four points carrying no data arrays. -/
def make_plane (_img : Image) : PVMesh :=
  { isPlane := true, nPoints := 4, pointDataRGB := none, cellDataRGB := none }

/-- The `add_mesh` call of line 203: the texture, `rgb=False`,
`scalars=None`, every remaining argument at its pyvista default. -/
def plane_render_params (img : Image) : RenderParams :=
  { style := Style.surface, show_edges := false, color := none, scalars := none,
    rgb := false, opacity := 1, texture := some img }

/-- Lines 189-217, `display_image_on_plane`: a no-op without an image;
otherwise the plane replaces the dataset, the texture is applied, and
the override and opacity are reset (lines 206-209).  `texture_ok`
stands for the texture construction of lines 199-200 not raising; when
it raises, line 215 resets the viewer. -/
def display_image_on_plane (texture_ok : Bool) (s : ViewerState) : ViewerState :=
  match s.current_image_pil with
  | none => s
  | some img =>
      if texture_ok then
        { s with
          current_mesh_pv := some (make_plane img)
          plotter := some (plane_render_params img)
          override_color := none
          current_opacity := 1
          opacity_slider := 100 }
      else reset_viewer_state s

/-- Outcome of `Image.open(...).convert` for a 2D image load. -/
inductive ImageLoad where
  | ok (img : Image)
  | failure
  deriving DecidableEq, Repr

/-- Lines 163-187, `load_2d_image` after the file dialog: a decode
failure resets the viewer (line 185); on success the image fields are
installed, the authoring mesh dropped, and the plane displayed. -/
def load_2d_image (raw : ImageLoad) (texture_ok : Bool) (file_path : String)
    (s : ViewerState) : ViewerState :=
  match raw with
  | ImageLoad.failure => reset_viewer_state s
  | ImageLoad.ok img =>
      let s1 : ViewerState :=
        { s with
          current_image_pil := some img
          current_filepath := some file_path
          is_2d_image_loaded := true
          current_mesh_tr := none }
      display_image_on_plane texture_ok s1

/-- Outcome of the external `rembg.remove` round trip. -/
inductive RembgResult where
  | ok (img : Image)
  | failure
  deriving DecidableEq, Repr

/-- Lines 219-239, `remove_image_background`: refused without a loaded
2D image; a collaborator failure is reported with `reset_state=False`,
leaving the state untouched (lines 237-239); on success the returned
image replaces the source and the plane is rebuilt. -/
def remove_image_background (result : RembgResult) (texture_ok : Bool)
    (s : ViewerState) : ViewerState :=
  if !s.is_2d_image_loaded || s.current_image_pil.isNone then s
  else
    match result with
    | RembgResult.failure => s
    | RembgResult.ok img =>
        display_image_on_plane texture_ok { s with current_image_pil := some img }

/-- What `mesh_to_export.export(fileName)` did: returned `None`,
returned a string, returned something else (for example the bytes a
binary writer produces), or raised. -/
inductive ExportResult where
  | retNone
  | retStr (text : String)
  | retBytes
  | raised (msg : String)
  deriving DecidableEq, Repr

/-- Outcome of `save_file_as` as reported to the user. -/
inductive SaveOutcome where
  | noMesh
  | saved
  | failed
  deriving DecidableEq, Repr

/-- Lines 512-514: `np.hstack` of a fully opaque alpha channel. -/
def addAlpha (a : NpColorArray) : NpColorArray :=
  { dtype := a.dtype, ncols := 4, rows := a.rows.map (fun r => r ++ [255]) }

/-- Lines 503-521 of `save_file_as`, the `colors_to_export` selection:
the display-side `RGB` array is taken only when present and of the same
length as the authoring vertex count (line 508), a 3-channel array
gaining the opaque alpha channel; a mismatch degrades to `None`. -/
def export_color_selection (tr : TrMesh) (pv : Option PVMesh) : Option NpColorArray :=
  match pv with
  | some m =>
      match m.pointDataRGB with
      | some colors_pv =>
          if colors_pv.rows.length == tr.nVertices then
            some (if colors_pv.ncols == 3 then addAlpha colors_pv else colors_pv)
          else none
      | none => none
  | none => none

/-- Lines 523-529, the `mesh_to_export` construction: a private copy of
the authoring mesh, with the selected colors stamped on when their
shape is `(n, 4)`. -/
def stamp_export_colors (tr : TrMesh) (co : Option NpColorArray) : TrMesh :=
  match co with
  | some c =>
      if c.rows.length == tr.nVertices && c.ncols == 4 then
        { tr with vertex_colors := some c }
      else tr
  | none => tr

/-- Lines 466-542, `save_file_as` after the file dialog: without an
authoring mesh the save is refused (lines 467-470); otherwise the
private stamped copy is handed to the writer and the writer result
decides success (531-537), any failure being reported with
`reset_state=False` (540).  Returns the resulting viewer state, the
reported outcome, and the mesh handed to the writer. -/
def save_file_as (writer : ExportResult) (s : ViewerState) :
    ViewerState × SaveOutcome × Option TrMesh :=
  match s.current_mesh_tr with
  | none => (s, SaveOutcome.noMesh, none)
  | some tr =>
      let mesh_to_export : TrMesh :=
        stamp_export_colors tr (export_color_selection tr s.current_mesh_pv)
      match writer with
      | ExportResult.retNone => (s, SaveOutcome.saved, some mesh_to_export)
      | ExportResult.retStr _ => (s, SaveOutcome.saved, some mesh_to_export)
      | ExportResult.retBytes => (s, SaveOutcome.failed, some mesh_to_export)
      | ExportResult.raised _ => (s, SaveOutcome.failed, some mesh_to_export)

/-- The asset-free state the failure policy demands: no meshes, no
image, no path, no image flag, nothing in the scene, no override. -/
def no_current_asset (s : ViewerState) : Prop :=
  s.current_mesh_pv = none ∧ s.current_mesh_tr = none ∧
  s.current_image_pil = none ∧ s.is_2d_image_loaded = false ∧
  s.current_filepath = none ∧ s.override_color = none ∧ s.plotter = none

/-- Mutual exclusion of the two color sources at the buffer level: the
buffer the renderer would see never carries both vertex colors and a
texture. -/
def buffer_mutual_exclusion (s : ViewerState) : Prop :=
  ∀ m, s.current_mesh_pv = some m →
    ¬((buffer_of s m).pointDataRGB.isSome = true ∧
      (buffer_of s m).texture_image.isSome = true)

/-- Example array: an 8-bit array whose values happen to lie in the
unit range. -/
def u8SmallColors : NpColorArray :=
  { dtype := Dtype.uint8, ncols := 3, rows := [[0, 0, 0], [1, 1, 1]] }

/-- Example array: normalized floating-point black and white. -/
def floatUnitColors : NpColorArray :=
  { dtype := Dtype.float64, ncols := 3, rows := [[0, 0, 0], [1, 1, 1]] }

/-- Example array: 8-bit black and white. -/
def u8FullColors : NpColorArray :=
  { dtype := Dtype.uint8, ncols := 3, rows := [[0, 0, 0], [255, 255, 255]] }

/-- Example buffer: a textured plane carrying a 2 by 2 image. -/
def planeBufferEx : GeometryBuffer :=
  { kind := BufferKind.texturedPlane, nPoints := 4, pointDataRGB := none,
    cellDataRGB := none, texture_image := some { width := 2, height := 2 } }

/-- Example buffer: a two-vertex mesh with vertex colors. -/
def meshBufferEx : GeometryBuffer :=
  { kind := BufferKind.mesh3D, nPoints := 2, pointDataRGB := some u8FullColors,
    cellDataRGB := none, texture_image := none }

/-- Example presentation state: points style, override set, half
opacity. -/
def pointsStateEx : PresentationState :=
  { style := Style.points, color_override := some rgbScalars, opacity := 1/2 }

/-- Example presentation state: surface style, no override. -/
def surfaceStateEx : PresentationState :=
  { style := Style.surface, color_override := none, opacity := 1 }

/-- Example scene part of 10 vertices. -/
def part10 : TrMesh := { nVertices := 10, vertex_colors := none }

/-- Example scene part of 20 vertices. -/
def part20 : TrMesh := { nVertices := 20, vertex_colors := none }

/-- Example file path of a scene. -/
def scenePath : String := "scene.glb"

/-- Example file path of a mesh. -/
def meshPath : String := "model.obj"

/-- Example authoring mesh with 3 vertices and no colors. -/
def tr3 : TrMesh := { nVertices := 3, vertex_colors := none }

/-- Example 2-row color array, one row short of `tr3`. -/
def shortColors : NpColorArray :=
  { dtype := Dtype.uint8, ncols := 3, rows := [[1, 2, 3], [4, 5, 6]] }

/-- Example display mesh of 3 points whose `RGB` array is too short. -/
def mismatchPV : PVMesh :=
  { isPlane := false, nPoints := 3, pointDataRGB := some shortColors,
    cellDataRGB := none }

/-- Example viewer state where the display colors disagree with the
authoring vertex count. -/
def mismatchState : ViewerState :=
  { initial_state with
    current_mesh_tr := some tr3
    current_mesh_pv := some mismatchPV }

/-- Example viewer state with the wireframe radio selected. -/
def wireframeState : ViewerState :=
  { initial_state with selected_style := Style.wireframe }

/-- Example writer error message. -/
def failMsg : String := "disk full"

end ViewerModel

namespace ViewerModel

/-- Claim C1: for every buffer and presentation state,
`recompute_render_params` behaves as specified.  A textured plane
forces the `surface` style, never shows edges, ignores the color
override, and (the texture being present, as the data model requires
for a plane) passes the texture as the sole color source.  A 3D mesh
keeps the selected style, gets no texture, shows edges exactly for the
`surface` style; a set color override wins outright; otherwise present
vertex colors drive the `RGB` scalars; otherwise no explicit color is
passed.  The opacity of the state always applies. -/
theorem C1_recompute_render_params (buffer : GeometryBuffer) (state : PresentationState) :
    (buffer.kind = BufferKind.texturedPlane →
      (recompute_render_params buffer state).style = Style.surface ∧
      (recompute_render_params buffer state).show_edges = false ∧
      (recompute_render_params buffer state).color = none ∧
      (buffer.texture_image.isSome = true →
        (recompute_render_params buffer state).scalars = none ∧
        (recompute_render_params buffer state).rgb = false ∧
        (recompute_render_params buffer state).texture = buffer.texture_image)) ∧
    (buffer.kind = BufferKind.mesh3D →
      (recompute_render_params buffer state).style = state.style ∧
      (recompute_render_params buffer state).texture = none ∧
      ((recompute_render_params buffer state).show_edges = true ↔
        state.style = Style.surface) ∧
      (state.color_override.isSome = true →
        (recompute_render_params buffer state).color = state.color_override ∧
        (recompute_render_params buffer state).scalars = none ∧
        (recompute_render_params buffer state).rgb = false) ∧
      (state.color_override = none → buffer.pointDataRGB.isSome = true →
        (recompute_render_params buffer state).scalars = some rgbScalars ∧
        (recompute_render_params buffer state).rgb = true ∧
        (recompute_render_params buffer state).color = none) ∧
      (state.color_override = none → buffer.pointDataRGB = none →
        buffer.cellDataRGB = none →
        (recompute_render_params buffer state).color = none ∧
        (recompute_render_params buffer state).scalars = none ∧
        (recompute_render_params buffer state).rgb = false)) ∧
    (recompute_render_params buffer state).opacity = state.opacity := by
  obtain ⟨k, n, prgb, crgb, tex⟩ := buffer
  obtain ⟨st, co, op⟩ := state
  cases k <;> cases co <;> cases prgb <;> cases crgb <;> cases tex <;> cases st <;>
    simp [recompute_render_params]

/-- Claim C1, witness: the theorem evaluated on a concrete textured
plane with a points style and a set override, and on a concrete colored
mesh without an override. -/
theorem C1_witness :
    (recompute_render_params planeBufferEx pointsStateEx).style = Style.surface ∧
    (recompute_render_params planeBufferEx pointsStateEx).scalars = none ∧
    (recompute_render_params meshBufferEx surfaceStateEx).scalars = some rgbScalars := by
  refine ⟨?_, ?_, ?_⟩
  · exact ((C1_recompute_render_params planeBufferEx pointsStateEx).1 (by decide)).1
  · exact (((C1_recompute_render_params planeBufferEx pointsStateEx).1
      (by decide)).2.2.2 (by decide)).1
  · exact (((C1_recompute_render_params meshBufferEx surfaceStateEx).2.1
      (by decide)).2.2.2.2.1 (by decide) (by decide)).1

/-- Claim C2, counterexample: the 8-bit array `[[0,0,0],[1,1,1]]` has
maximum value at most 1, so the detection heuristic the claim states
for every accepted array would classify it as normalized and rescale it
to `[[0,0,0],[255,255,255]]`; the code, however, never applies the
check to an array whose dtype is already `uint8` and returns it
unchanged. -/
theorem C2_counterexample :
    maxVal (dropAlpha u8SmallColors) ≤ 1 ∧
    transcode_colors u8SmallColors = u8SmallColors ∧
    claimed_transcode u8SmallColors ≠ transcode_colors u8SmallColors := by decide

/-- Claim C2 (amended): the max-based representation detection applies
exactly to the arrays whose dtype is not already 8-bit: those with
maximum value at most 1.0 are rescaled by 255 and truncated, the others
only truncated; an array already of 8-bit dtype is returned unchanged
(beyond the alpha drop) without any detection. -/
theorem C2_transcode_amended (a : NpColorArray) :
    (a.dtype ≠ Dtype.uint8 → maxVal (dropAlpha a) ≤ 1 →
      transcode_colors a =
        { dtype := Dtype.uint8, ncols := (dropAlpha a).ncols,
          rows := (dropAlpha a).rows.map (fun r => r.map npCastUint8Scaled) }) ∧
    (a.dtype ≠ Dtype.uint8 → ¬maxVal (dropAlpha a) ≤ 1 →
      transcode_colors a =
        { dtype := Dtype.uint8, ncols := (dropAlpha a).ncols,
          rows := (dropAlpha a).rows.map (fun r => r.map npCastUint8) }) ∧
    (a.dtype = Dtype.uint8 → transcode_colors a = dropAlpha a) := by
  have hd : (dropAlpha a).dtype = a.dtype := by
    unfold dropAlpha
    split <;> rfl
  refine ⟨fun h1 h2 => ?_, fun h1 h2 => ?_, fun h1 => ?_⟩
  · have h1b : (dropAlpha a).dtype ≠ Dtype.uint8 := by rw [hd]; exact h1
    simp only [transcode_colors]
    rw [if_pos h1b, if_pos h2]
  · have h1b : (dropAlpha a).dtype ≠ Dtype.uint8 := by rw [hd]; exact h1
    simp only [transcode_colors]
    rw [if_pos h1b, if_neg h2]
  · have h1b : ¬(dropAlpha a).dtype ≠ Dtype.uint8 := by
      rw [hd]
      exact fun hc => hc h1
    simp only [transcode_colors]
    rw [if_neg h1b]

/-- Claim C2, witness: the claimed examples through the amended
theorem, a normalized float array rescaled to 8-bit black and white and
an 8-bit array left unchanged. -/
theorem C2_witness :
    transcode_colors floatUnitColors = u8FullColors ∧
    transcode_colors u8FullColors = u8FullColors := by
  constructor
  · have h := (C2_transcode_amended floatUnitColors).1 (by decide) (by decide)
    rw [h]; decide
  · have h := (C2_transcode_amended u8FullColors).2.2 (by decide)
    rw [h]; decide

/-- The wrapped display dataset always has the vertex count of the
authoring mesh, whether or not colors transfer. -/
theorem pv_wrap_nPoints (tr : TrMesh) :
    (pv_wrap_with_colors tr).nPoints = tr.nVertices := by
  unfold pv_wrap_with_colors
  rcases tr.vertex_colors with _ | c
  · rfl
  · dsimp only
    split <;> rfl

/-- Claim C3: a decoded non-empty multi-part scene is concatenated into
one mesh whose vertex count is the sum over all parts (not the first
part alone), and the installed display buffer has exactly that many
vertices; an empty scene or a decoded object that is not a genuine mesh
makes the load fail and roll back instead of displaying anything. -/
theorem C3_scene_concatenation :
    (∀ parts : List TrMesh, parts ≠ [] →
      resolve_loaded_object (RawLoad.scene parts) =
        Except.ok (trimesh_concatenate parts) ∧
      (trimesh_concatenate parts).nVertices = (parts.map TrMesh.nVertices).sum) ∧
    (∀ (parts : List TrMesh) (path : String) (s : ViewerState), parts ≠ [] →
      (load_3d_model (RawLoad.scene parts) path s).current_mesh_pv =
        some (pv_wrap_with_colors (trimesh_concatenate parts)) ∧
      (pv_wrap_with_colors (trimesh_concatenate parts)).nPoints =
        (parts.map TrMesh.nVertices).sum) ∧
    (∀ (path : String) (s : ViewerState),
      no_current_asset (load_3d_model (RawLoad.scene []) path s)) ∧
    (∀ (path : String) (s : ViewerState),
      no_current_asset (load_3d_model RawLoad.other path s)) := by
  have hres : ∀ parts : List TrMesh, parts ≠ [] →
      resolve_loaded_object (RawLoad.scene parts) =
        Except.ok (trimesh_concatenate parts) := by
    intro parts h
    simp [resolve_loaded_object, List.length_pos.mpr h]
  refine ⟨fun parts h => ⟨hres parts h, rfl⟩, fun parts path s h => ?_, fun path s => ?_,
    fun path s => ?_⟩
  · refine ⟨?_, ?_⟩
    · simp [load_3d_model, hres parts h, update_representation]
    · rw [pv_wrap_nPoints]
      rfl
  · simp [load_3d_model, resolve_loaded_object, reset_viewer_state, no_current_asset]
  · simp [load_3d_model, resolve_loaded_object, reset_viewer_state, no_current_asset]

/-- Claim C3, witness: the scene of parts with 10 and 20 vertices turns
into one consolidated buffer of exactly 30 vertices. -/
theorem C3_witness :
    (trimesh_concatenate [part10, part20]).nVertices = 30 ∧
    (load_3d_model (RawLoad.scene [part10, part20]) scenePath initial_state).current_mesh_pv =
      some (pv_wrap_with_colors (trimesh_concatenate [part10, part20])) ∧
    (pv_wrap_with_colors (trimesh_concatenate [part10, part20])).nPoints = 30 := by
  have h2 := C3_scene_concatenation.2.1 [part10, part20] scenePath initial_state (by decide)
  have h1 := C3_scene_concatenation.1 [part10, part20] (by decide)
  refine ⟨?_, h2.1, ?_⟩
  · rw [h1.2]; decide
  · rw [h2.2]; decide

/-- Claim C4: whenever the display-side `RGB` array length disagrees
with the authoring vertex count, the save proceeds without stamping a
color: the mesh handed to the writer is the unmodified authoring mesh,
and the outcome still depends only on the writer, so the mismatch is
neither an exception nor a hard failure of the save. -/
theorem C4_color_size_mismatch (s : ViewerState) (tr : TrMesh) (m : PVMesh)
    (c : NpColorArray) (h1 : s.current_mesh_tr = some tr)
    (h2 : s.current_mesh_pv = some m) (h3 : m.pointDataRGB = some c)
    (h4 : c.rows.length ≠ tr.nVertices) :
    (∀ w, (save_file_as w s).2.2 = some tr) ∧
    (save_file_as ExportResult.retNone s).2.1 = SaveOutcome.saved ∧
    (∀ t, (save_file_as (ExportResult.retStr t) s).2.1 = SaveOutcome.saved) := by
  have hc : (c.rows.length == tr.nVertices) = false := by
    simpa using h4
  have hsel : export_color_selection tr s.current_mesh_pv = none := by
    simp [export_color_selection, h2, h3, hc]
  refine ⟨fun w => ?_, ?_, fun t => ?_⟩
  · cases w <;> simp [save_file_as, h1, hsel, stamp_export_colors]
  · simp [save_file_as, h1, hsel, stamp_export_colors]
  · simp [save_file_as, h1, hsel, stamp_export_colors]

/-- Claim C4, witness: a 2-row color array against a 3-vertex authoring
mesh still saves, with the unmodified mesh handed to the writer. -/
theorem C4_witness :
    (save_file_as ExportResult.retNone mismatchState).2.2 = some tr3 ∧
    (save_file_as ExportResult.retNone mismatchState).2.1 = SaveOutcome.saved := by
  have h := C4_color_size_mismatch mismatchState tr3 mismatchPV shortColors
    (by decide) (by decide) (by decide) (by decide)
  exact ⟨h.1 ExportResult.retNone, h.2.1⟩

/-- Claim C5, counterexample: with the wireframe radio selected,
loading a mesh succeeds (a dataset is installed) while the wireframe
selection survives, so the presentation state right after a successful
load is not the default `Surface, no override, opacity 1` state the
claim requires. -/
theorem C5_counterexample :
    (load_3d_model (RawLoad.mesh tr3) meshPath wireframeState).current_mesh_pv.isSome = true ∧
    (load_3d_model (RawLoad.mesh tr3) meshPath wireframeState).selected_style =
      Style.wireframe ∧
    present_of (load_3d_model (RawLoad.mesh tr3) meshPath wireframeState) ≠
      { style := Style.surface, color_override := none, opacity := 1 } := by decide

/-- Claim C5 (amended): after every successful asset load the color
override is cleared and the opacity returns to 1.0 with the slider at
100; the draw style, however, is not reset: the radio selection of the
user survives the load unchanged. -/
theorem C5_reset_on_load (s : ViewerState) :
    (∀ raw path tr, resolve_loaded_object raw = Except.ok tr →
      (load_3d_model raw path s).override_color = none ∧
      (load_3d_model raw path s).current_opacity = 1 ∧
      (load_3d_model raw path s).opacity_slider = 100 ∧
      (load_3d_model raw path s).selected_style = s.selected_style) ∧
    (∀ img path,
      (load_2d_image (ImageLoad.ok img) true path s).override_color = none ∧
      (load_2d_image (ImageLoad.ok img) true path s).current_opacity = 1 ∧
      (load_2d_image (ImageLoad.ok img) true path s).opacity_slider = 100 ∧
      (load_2d_image (ImageLoad.ok img) true path s).selected_style = s.selected_style) := by
  constructor
  · intro raw path tr h
    simp [load_3d_model, h, update_representation]
  · intro img path
    simp [load_2d_image, display_image_on_plane]

/-- Claim C5 (amended), witness: the amended reset behavior on the
concrete wireframe state and a successful concrete mesh load. -/
theorem C5_witness :
    (load_3d_model (RawLoad.mesh tr3) meshPath wireframeState).override_color = none ∧
    (load_3d_model (RawLoad.mesh tr3) meshPath wireframeState).current_opacity = 1 ∧
    (load_3d_model (RawLoad.mesh tr3) meshPath wireframeState).selected_style =
      wireframeState.selected_style := by
  have h := (C5_reset_on_load wireframeState).1 (RawLoad.mesh tr3) meshPath tr3 rfl
  exact ⟨h.1, h.2.1, h.2.2.2⟩

/-- Claim C6: every failing load path rolls back to the asset-free
state: decode failure, empty scene and non-mesh decoded object for a 3D
load, decode failure and texture failure for a 2D load.  The prior
asset, whatever it was, is fully discarded and the scene cleared. -/
theorem C6_failure_rollback (s : ViewerState) :
    (∀ path, no_current_asset (load_3d_model RawLoad.failure path s)) ∧
    (∀ path, no_current_asset (load_3d_model (RawLoad.scene []) path s)) ∧
    (∀ path, no_current_asset (load_3d_model RawLoad.other path s)) ∧
    (∀ texok path, no_current_asset (load_2d_image ImageLoad.failure texok path s)) ∧
    (∀ img path, no_current_asset (load_2d_image (ImageLoad.ok img) false path s)) ∧
    no_current_asset (reset_viewer_state s) := by
  refine ⟨fun path => ?_, fun path => ?_, fun path => ?_, fun texok path => ?_,
    fun img path => ?_, ?_⟩ <;>
    simp [load_3d_model, load_2d_image, resolve_loaded_object, display_image_on_plane,
      reset_viewer_state, no_current_asset]

/-- A state that holds no display dataset satisfies the exclusion
vacuously. -/
theorem mutual_exclusion_of_none (s : ViewerState)
    (h : s.current_mesh_pv = none) : buffer_mutual_exclusion s := by
  intro m hm
  rw [h] at hm
  exact absurd hm (by simp)

/-- A state that is not in 2D-image mode gets no texture in its buffer,
so the exclusion holds. -/
theorem mutual_exclusion_of_not_2d (s : ViewerState)
    (h : s.is_2d_image_loaded = false) : buffer_mutual_exclusion s := by
  intro m hm hc
  rcases hc with ⟨hp, ht⟩
  unfold buffer_of at ht
  rw [h] at ht
  simp at ht

/-- A state displaying a dataset without point colors satisfies the
exclusion. -/
theorem mutual_exclusion_of_plane_no_rgb (s : ViewerState) (p : PVMesh)
    (h : s.current_mesh_pv = some p) (hp : p.pointDataRGB = none) :
    buffer_mutual_exclusion s := by
  intro m hm hc
  rw [h] at hm
  injection hm with hm
  subst hm
  rcases hc with ⟨hpp, _⟩
  unfold buffer_of at hpp
  split at hpp <;> simp [hp] at hpp

/-- `save_file_as` returns the input viewer state for every writer
outcome. -/
theorem save_file_as_fst (w : ExportResult) (s : ViewerState) :
    (save_file_as w s).1 = s := by
  unfold save_file_as
  rcases s.current_mesh_tr with _ | tr
  · rfl
  · dsimp only
    cases w <;> rfl

/-- The stamped private copy keeps the vertex count of the authoring
mesh. -/
theorem stamp_export_colors_nVertices (tr : TrMesh) (co : Option NpColorArray) :
    (stamp_export_colors tr co).nVertices = tr.nVertices := by
  unfold stamp_export_colors
  rcases co with _ | c
  · rfl
  · dsimp only
    split <;> rfl

/-- `update_representation` only rewrites the scene: every state field
it reads is left unchanged. -/
theorem update_representation_fields (s : ViewerState) :
    (update_representation s).current_mesh_pv = s.current_mesh_pv ∧
    (update_representation s).current_mesh_tr = s.current_mesh_tr ∧
    (update_representation s).current_image_pil = s.current_image_pil ∧
    (update_representation s).is_2d_image_loaded = s.is_2d_image_loaded ∧
    (update_representation s).override_color = s.override_color ∧
    (update_representation s).current_opacity = s.current_opacity ∧
    (update_representation s).selected_style = s.selected_style := by
  unfold update_representation
  rcases s.current_mesh_pv with _ | m <;> simp

/-- The buffer projection only reads the image-mode flag and the image,
so it is stable under changes of the other fields. -/
theorem buffer_of_congr (s1 s2 : ViewerState) (m : PVMesh)
    (h1 : s1.is_2d_image_loaded = s2.is_2d_image_loaded)
    (h2 : s1.current_image_pil = s2.current_image_pil) :
    buffer_of s1 m = buffer_of s2 m := by
  unfold buffer_of
  rw [h1, h2]

/-- The exclusion is preserved by the recompute step, which only
rewrites the scene. -/
theorem mutual_exclusion_update (s : ViewerState)
    (h : buffer_mutual_exclusion s) :
    buffer_mutual_exclusion (update_representation s) := by
  intro m hm
  have hf := update_representation_fields s
  rw [hf.1] at hm
  have hb : buffer_of (update_representation s) m = buffer_of s m :=
    buffer_of_congr _ _ m hf.2.2.2.1 hf.2.2.1
  rw [hb]
  exact h m hm

/-- Claim C7: per-vertex colors and a texture never both drive a
produced buffer.  Every 3D load leaves 2D mode, so its buffer has no
texture; every 2D load installs the bare plane, which has no color
arrays; background removal (which rebuilds the plane), export, the
recompute step and the reset all preserve the exclusion. -/
theorem C7_mutual_exclusion (s : ViewerState) :
    (∀ raw path, buffer_mutual_exclusion (load_3d_model raw path s)) ∧
    (∀ raw texok path, buffer_mutual_exclusion (load_2d_image raw texok path s)) ∧
    (∀ result texok, buffer_mutual_exclusion s →
      buffer_mutual_exclusion (remove_image_background result texok s)) ∧
    (∀ w, buffer_mutual_exclusion s → buffer_mutual_exclusion (save_file_as w s).1) ∧
    (buffer_mutual_exclusion s → buffer_mutual_exclusion (update_representation s)) ∧
    buffer_mutual_exclusion (reset_viewer_state s) := by
  refine ⟨fun raw path => ?_, fun raw texok path => ?_, fun result texok h => ?_,
    fun w h => ?_, fun h => mutual_exclusion_update s h,
    mutual_exclusion_of_none _ rfl⟩
  · unfold load_3d_model
    rcases resolve_loaded_object raw with e | tr
    · exact mutual_exclusion_of_none _ rfl
    · dsimp only
      apply mutual_exclusion_of_not_2d
      rw [(update_representation_fields _).2.2.2.1]
  · rcases raw with img | _
    · unfold load_2d_image
      dsimp only
      unfold display_image_on_plane
      dsimp only
      cases texok
      · exact mutual_exclusion_of_none _ rfl
      · exact mutual_exclusion_of_plane_no_rgb _ (make_plane img) rfl rfl
    · exact mutual_exclusion_of_none _ rfl
  · unfold remove_image_background
    split
    · exact h
    · rcases result with img | _
      · dsimp only
        unfold display_image_on_plane
        dsimp only
        cases texok
        · exact mutual_exclusion_of_none _ rfl
        · exact mutual_exclusion_of_plane_no_rgb _ (make_plane img) rfl rfl
      · exact h
  · rw [save_file_as_fst]
    exact h

/-- Claim C7, witness: the exclusion holds after a concrete mesh load
and is preserved through a failing background removal on the concrete
empty start state. -/
theorem C7_witness :
    buffer_mutual_exclusion (load_3d_model (RawLoad.mesh tr3) meshPath initial_state) ∧
    buffer_mutual_exclusion
      (remove_image_background RembgResult.failure true initial_state) := by
  refine ⟨(C7_mutual_exclusion initial_state).1 (RawLoad.mesh tr3) meshPath, ?_⟩
  exact (C7_mutual_exclusion initial_state).2.2.1 RembgResult.failure true
    (fun m hm => nomatch hm)

/-- Claim C8: an export never changes the live state: the viewer state
returned by `save_file_as` is exactly the input state for every writer
outcome, the color is stamped only onto the private copy handed to the
writer (which keeps the authoring vertex count while the live authoring
mesh stays installed), and a failed background removal likewise leaves
the state untouched. -/
theorem C8_export_frame (s : ViewerState) :
    (∀ w, (save_file_as w s).1 = s) ∧
    (∀ w tr, s.current_mesh_tr = some tr →
      (save_file_as w s).1.current_mesh_tr = some tr ∧
      ∃ me, (save_file_as w s).2.2 = some me ∧ me.nVertices = tr.nVertices) ∧
    (∀ texok, remove_image_background RembgResult.failure texok s = s) := by
  refine ⟨fun w => save_file_as_fst w s, fun w tr h => ?_, fun texok => ?_⟩
  · refine ⟨by rw [save_file_as_fst]; exact h, ?_⟩
    unfold save_file_as
    rw [h]
    dsimp only
    cases w <;>
      exact ⟨_, rfl, stamp_export_colors_nVertices tr _⟩
  · unfold remove_image_background
    split
    · rfl
    · rfl

/-- Claim C8, witness: a raised writer error on the concrete mismatch
state keeps the state and its authoring mesh, while the private copy
still has 3 vertices. -/
theorem C8_witness :
    (save_file_as (ExportResult.raised failMsg) mismatchState).1 = mismatchState ∧
    (save_file_as (ExportResult.raised failMsg) mismatchState).1.current_mesh_tr =
      some tr3 ∧
    remove_image_background RembgResult.failure true mismatchState = mismatchState := by
  have h := C8_export_frame mismatchState
  exact ⟨h.1 (ExportResult.raised failMsg),
    (h.2.1 (ExportResult.raised failMsg) tr3 rfl).1, h.2.2 true⟩

/-- Claim C9: the recompute step is a pure, deterministic function of
the buffer and presentation state it reads: running it changes nothing
it depends on, so a second run recomputes identical render parameters
and the step is idempotent on the whole state. -/
theorem C9_recompute_idempotent (s : ViewerState) :
    update_representation (update_representation s) = update_representation s ∧
    (∀ m, s.current_mesh_pv = some m →
      buffer_of (update_representation s) m = buffer_of s m ∧
      present_of (update_representation s) = present_of s ∧
      (update_representation s).plotter =
        some (recompute_render_params (buffer_of s m) (present_of s)) ∧
      (update_representation (update_representation s)).plotter =
        (update_representation s).plotter) := by
  obtain ⟨pv, tr, img, b2d, fp, oc, op, sl, st, pl⟩ := s
  cases pv <;> simp [update_representation, buffer_of, present_of]

/-- Claim C9, witness: idempotence and the recomputed parameters on the
concrete mismatch state, which displays a mesh. -/
theorem C9_witness :
    update_representation (update_representation mismatchState) =
      update_representation mismatchState ∧
    (update_representation mismatchState).plotter =
      some (recompute_render_params (buffer_of mismatchState mismatchPV)
        (present_of mismatchState)) := by
  have h := C9_recompute_idempotent mismatchState
  exact ⟨h.1, (h.2 mismatchPV rfl).2.2.1⟩

/-- Claim C10: once the writer is reached, the save is reported
successful exactly when the writer returned `None` or a string; any
other return value (such as the bytes of a binary writer) or a raised
error is reported as a save failure, while the writer was really handed
a mesh in every case and the current asset is kept. -/
theorem C10_writer_result (s : ViewerState) (tr : TrMesh)
    (h : s.current_mesh_tr = some tr) :
    (∀ w, (save_file_as w s).2.1 = SaveOutcome.saved ↔
      (w = ExportResult.retNone ∨ ∃ t, w = ExportResult.retStr t)) ∧
    (save_file_as ExportResult.retBytes s).2.1 = SaveOutcome.failed ∧
    (∀ msg, (save_file_as (ExportResult.raised msg) s).2.1 = SaveOutcome.failed) ∧
    (∀ w, (save_file_as w s).2.2.isSome = true) ∧
    (∀ w, (save_file_as w s).1 = s) := by
  refine ⟨fun w => ?_, ?_, fun msg => ?_, fun w => ?_, fun w => save_file_as_fst w s⟩
  · cases w <;> simp [save_file_as, h]
  · simp [save_file_as, h]
  · simp [save_file_as, h]
  · cases w <;> simp [save_file_as, h]

/-- Claim C10, witness: on the concrete mismatch state, a `None` return
is reported saved and a bytes return is reported failed. -/
theorem C10_witness :
    (save_file_as ExportResult.retNone mismatchState).2.1 = SaveOutcome.saved ∧
    (save_file_as ExportResult.retBytes mismatchState).2.1 = SaveOutcome.failed := by
  have h := C10_writer_result mismatchState tr3 rfl
  exact ⟨(h.1 ExportResult.retNone).2 (Or.inl rfl), h.2.1⟩

end ViewerModel

